import Mathlib

/-!
# Shallow embedding of the attendance tracker's shift-time engine

This file embeds the time logic of `src/app.py` (functions `get_shift_date`,
`format_time`, `parse_time`, `calculate_times`, and the record-mutating
handlers around them) and proves the specified properties.

Modelling choices, matched against the source:

* Timestamps are wall-clock values at minute precision (`strptime` with the
  format `"%Y-%m-%d %I:%M %p"` never produces seconds, and `format_time`
  never prints them).  The calendar date is a day index `day : Int`, so
  `timedelta(days=1)` is `day + 1` and `.date() - 1 day` is `day - 1`.
  The configured timezone is a single constant (`EGYPT_TZ`) attached with
  `dt.replace(tzinfo=...)`, so datetime subtraction is wall-clock
  subtraction and the tzinfo plays no role in any computation embedded here.
* `datetime.strptime(f"{shift_date} {time_str}", "%Y-%m-%d %I:%M %p")` is
  embedded at the level of the time portion: the date prefix produced by
  `str(shift_date)` always matches `"%Y-%m-%d"`, and the literal space in
  the format compiles to the regex `\s+`, which absorbs any leading
  whitespace of `time_str`.  The remaining fragment `%I:%M %p` is the
  CPython `_strptime` regex `(1[0-2]|0[1-9]|[1-9]):([0-5]\d|\d)\s+(am|pm)`
  compiled with IGNORECASE and required to consume the whole string; the
  char-list parser below is its determinisation.
* Nullable values (`pd.NA` / `None` / missing) are `Option`; pandas float
  cells are exact rationals `ℚ` (the Python arithmetic divides elapsed
  seconds by 3600, embedded exactly).
-/

namespace Attendance

/-- A wall-clock timestamp at minute precision: `day` is the calendar day
index, `hour < 24`, `minute < 60` for values produced by the code. -/
structure Timestamp where
  day : Int
  hour : Nat
  minute : Nat
deriving DecidableEq, Repr

/-- Seconds since day 0 midnight; datetime subtraction
`(b - a).total_seconds()` is `toSeconds b - toSeconds a` (constant tzinfo on
both sides, so the offsets cancel). -/
def toSeconds (t : Timestamp) : Int :=
  t.day * 86400 + (t.hour : Int) * 3600 + (t.minute : Int) * 60

/-- Python's `\s` on the characters that can occur in a `str`:
space, tab, newline, carriage return, vertical tab, form feed. -/
def pyIsSpace (c : Char) : Bool :=
  c == ' ' || c == '\t' || c == '\n' || c == '\r' ||
    c == Char.ofNat 11 || c == Char.ofNat 12

/-- Numeric value of a digit character. -/
def dval (c : Char) : Nat := c.toNat - 48

/-- The `%I` directive followed by the literal `":"`: the regex
`(1[0-2]|0[1-9]|[1-9]):` with backtracking resolved.  Returns the 12-hour
value (1..12) and the characters after the colon. -/
def parseHour : List Char → Option (Nat × List Char)
  | '0' :: c :: ':' :: rest =>
      if c.isDigit && c != '0' then some (dval c, rest) else none
  | '1' :: c :: ':' :: rest =>
      if c == '0' || c == '1' || c == '2' then some (10 + dval c, rest)
      else none
  | c :: ':' :: rest =>
      if c.isDigit && c != '0' then some (dval c, rest) else none
  | _ => none

/-- The `%M` directive: the regex `([0-5]\d|\d)`.  A digit pair with first
digit `0..5` must be taken whole (the one-digit alternative would leave a
digit where `\s+` is required, so the regex as a whole fails anyway). -/
def parseMinute : List Char → Option (Nat × List Char)
  | c1 :: c2 :: rest =>
      if c1.isDigit then
        if c2.isDigit then
          if dval c1 ≤ 5 then some (10 * dval c1 + dval c2, rest) else none
        else some (dval c1, c2 :: rest)
      else none
  | [c1] => if c1.isDigit then some (dval c1, []) else none
  | [] => none

/-- The `%p` directive at end of input: `(am|pm)` under IGNORECASE, with
`_strptime`'s full-consumption check.  Returns `true` for pm. -/
def parseMeridiem : List Char → Option Bool
  | [c1, c2] =>
      if (c1 == 'a' || c1 == 'A') && (c2 == 'm' || c2 == 'M') then some false
      else if (c1 == 'p' || c1 == 'P') && (c2 == 'm' || c2 == 'M') then
        some true
      else none
  | _ => none

/-- Parse the `%I:%M %p` portion of the combined string, i.e. everything of
`time_str` after the date prefix (whose trailing `\s+` also eats leading
whitespace of `time_str`).  Returns the 24-hour clock reading, applying
`_strptime`'s `%I`/`%p` combination rule (12 AM → 0, 12 PM → 12). -/
def parseClock (s : List Char) : Option (Nat × Nat) :=
  match parseHour (s.dropWhile pyIsSpace) with
  | none => none
  | some (h12, rest1) =>
    match parseMinute rest1 with
    | none => none
    | some (m, rest2) =>
      match rest2 with
      | [] => none
      | c :: rest3 =>
        if pyIsSpace c then
          match parseMeridiem (rest3.dropWhile pyIsSpace) with
          | none => none
          | some pm =>
            let h := if pm then (if h12 == 12 then 12 else h12 + 12)
                     else (if h12 == 12 then 0 else h12)
            some (h, m)
        else none

/-- Python's `str.endswith`. -/
def pyEndsWith (s suffix : String) : Bool :=
  suffix.data.isSuffixOf s.data

/-- Embedding of `parse_time(time_str, shift_date)` from `src/app.py`:
`None`/non-string → `None`; otherwise `strptime` the combined string and, on
success, add one day when the parsed hour is before 16 and the original
string ends with the exact uppercase literal `"AM"`. -/
def parse_time (time_str : Option String) (shift_date : Int) :
    Option Timestamp :=
  match time_str with
  | none => none
  | some s =>
    match parseClock s.data with
    | none => none
    | some (h, m) =>
      if h < 16 && pyEndsWith s "AM" then some ⟨shift_date + 1, h, m⟩
      else some ⟨shift_date, h, m⟩

/-- Two-digit zero-padded rendering of `%I` / `%M` values. -/
def pad2 (n : Nat) : List Char := [Nat.digitChar (n / 10), Nat.digitChar (n % 10)]

/-- Python's `str.lstrip("0")`. -/
def lstripZeros : List Char → List Char
  | [] => []
  | c :: rest => if c == '0' then lstripZeros rest else c :: rest

/-- The characters of `dt.strftime("%I:%M %p").lstrip("0")`. -/
def formatChars (hour minute : Nat) : List Char :=
  lstripZeros
    (pad2 (if hour % 12 == 0 then 12 else hour % 12) ++
      ':' :: pad2 minute ++
      ' ' :: (if hour < 12 then ['A', 'M'] else ['P', 'M']))

/-- Embedding of `format_time(dt)` from `src/app.py` on a datetime argument:
`dt.strftime("%I:%M %p").lstrip("0")` (the `%p` field is `"AM"`/`"PM"` in
the C locale). -/
def format_time (t : Timestamp) : String :=
  ⟨formatChars t.hour t.minute⟩

/-- Embedding of `get_shift_date()` from `src/app.py`, with the sampled
clock made an explicit argument: the shift date is yesterday when the hour
is strictly before 4, or exactly 4 with minute 0. -/
def get_shift_date (now : Timestamp) : Int :=
  if now.hour < 4 ∨ (now.hour = 4 ∧ now.minute = 0) then now.day - 1
  else now.day

/-- One row of the attendance table (`EXPECTED_COLUMNS` in `src/app.py`).
Time cells are nullable strings, the computed cells are floats (embedded as
exact rationals), `Date` is the shift date as a day index. -/
structure Row where
  User : String
  Date : Int
  CheckIn : Option String
  CheckOut : Option String
  Break1Start : Option String
  Break1End : Option String
  Break2Start : Option String
  Break2End : Option String
  Break3Start : Option String
  Break3End : Option String
  TotalHours : ℚ
  BreakDuration : ℚ
  Active : Bool
deriving DecidableEq, Repr

/-- The body of the break loop in `calculate_times`: a slot contributes
`(break_end - break_start).total_seconds() / 3600` when both sides parse,
otherwise nothing. -/
def slotDuration (s e : Option String) (shift_date : Int) : ℚ :=
  match (if s.isSome then parse_time s shift_date else none),
        (if e.isSome then parse_time e shift_date else none) with
  | some bs, some be => ((toSeconds be - toSeconds bs : Int) : ℚ) / 3600
  | _, _ => 0

/-- Embedding of `calculate_times(row, shift_date)` from `src/app.py`: the
`(total_hours, break_duration)` pair. -/
def calculate_times (row : Row) (shift_date : Int) : ℚ × ℚ :=
  let check_in := if row.CheckIn.isSome then parse_time row.CheckIn shift_date
                  else none
  let check_out := if row.CheckOut.isSome then
                     parse_time row.CheckOut shift_date
                   else none
  let total_hours : ℚ :=
    match check_in, check_out with
    | some ci, some co => ((toSeconds co - toSeconds ci : Int) : ℚ) / 3600
    | _, _ => 0
  let break_duration : ℚ :=
    slotDuration row.Break1Start row.Break1End shift_date +
      slotDuration row.Break2Start row.Break2End shift_date +
      slotDuration row.Break3Start row.Break3End shift_date
  (total_hours, break_duration)

/-- The freshly created session row (`new_row` in the start-session
handler): all time cells empty, computed cells 0, active. -/
def emptyRow (user : String) (date : Int) : Row :=
  { User := user, Date := date, CheckIn := none, CheckOut := none,
    Break1Start := none, Break1End := none, Break2Start := none,
    Break2End := none, Break3Start := none, Break3End := none,
    TotalHours := 0, BreakDuration := 0, Active := true }

/-- Derived-values invariant of `src/app.py`: the stored float cells agree
with `calculate_times` applied to the row's own time fields and its shift
date. -/
def storedDerived (row : Row) (shift_date : Int) : Prop :=
  row.TotalHours = (calculate_times row shift_date).1 ∧
    row.BreakDuration = (calculate_times row shift_date).2

/-- The recompute-and-store step shared by every mutating handler in
`src/app.py`: run `calculate_times` on the (already updated) row and write
the results into `TotalHours` and `BreakDuration`. -/
def recompute (row : Row) (shift_date : Int) : Row :=
  { row with TotalHours := (calculate_times row shift_date).1,
             BreakDuration := (calculate_times row shift_date).2 }

/-- Accessor for the `Break{i}Start` column, `i` zero-based. -/
def breakStartField (row : Row) (i : Fin 3) : Option String :=
  if i.val = 0 then row.Break1Start
  else if i.val = 1 then row.Break2Start
  else row.Break3Start

/-- Accessor for the `Break{i}End` column, `i` zero-based. -/
def breakEndField (row : Row) (i : Fin 3) : Option String :=
  if i.val = 0 then row.Break1End
  else if i.val = 1 then row.Break2End
  else row.Break3End

/-- Setter for the `Break{i}Start` column, `i` zero-based. -/
def setBreakStart (row : Row) (i : Fin 3) (v : Option String) : Row :=
  if i.val = 0 then { row with Break1Start := v }
  else if i.val = 1 then { row with Break2Start := v }
  else { row with Break3Start := v }

/-- Setter for the `Break{i}End` column, `i` zero-based. -/
def setBreakEnd (row : Row) (i : Fin 3) (v : Option String) : Row :=
  if i.val = 0 then { row with Break1End := v }
  else if i.val = 1 then { row with Break2End := v }
  else { row with Break3End := v }

/-- Guard `i == 1 or pd.notna(Break{i-1}End)` of the break-start button
(`i` zero-based here). -/
def prevBreakEnded (row : Row) (i : Fin 3) : Bool :=
  if i.val = 0 then true
  else if i.val = 1 then row.Break1End.isSome
  else row.Break2End.isSome

/-- The check-in button handler (guard `pd.isna(CheckIn)`): stamp the
current time into `CheckIn`, then recompute and store the durations. -/
def check_in_handler (row : Row) (now : Timestamp) (shift_date : Int) :
    Row :=
  if row.CheckIn.isNone then
    recompute { row with CheckIn := some (format_time now) } shift_date
  else row

/-- The break-start button handler (guards: slot empty, checked in, and
previous break closed), followed by recompute-and-store. -/
def break_start_handler (row : Row) (i : Fin 3) (now : Timestamp)
    (shift_date : Int) : Row :=
  if (breakStartField row i).isNone && row.CheckIn.isSome &&
      prevBreakEnded row i then
    recompute (setBreakStart row i (some (format_time now))) shift_date
  else row

/-- The break-end button handler (guards: slot started and not ended),
followed by recompute-and-store. -/
def break_end_handler (row : Row) (i : Fin 3) (now : Timestamp)
    (shift_date : Int) : Row :=
  if (breakStartField row i).isSome && (breakEndField row i).isNone then
    recompute (setBreakEnd row i (some (format_time now))) shift_date
  else row

/-- Guard of the check-out button: every started break has been ended. -/
def breaksClosed (row : Row) : Bool :=
  (row.Break1Start.isNone || row.Break1End.isSome) &&
    (row.Break2Start.isNone || row.Break2End.isSome) &&
    (row.Break3Start.isNone || row.Break3End.isSome)

/-- The check-out button handler (guards: checked in, not checked out,
breaks closed), followed by recompute-and-store. -/
def check_out_handler (row : Row) (now : Timestamp) (shift_date : Int) :
    Row :=
  if row.CheckIn.isSome && row.CheckOut.isNone && breaksClosed row then
    recompute { row with CheckOut := some (format_time now) } shift_date
  else row

/-- Text-input contents of the admin edit-session form: eight time strings
(empty means clear the cell) and the active flag. -/
structure EditForm where
  check_in : String
  check_out : String
  break1_start : String
  break1_end : String
  break2_start : String
  break2_end : String
  break3_start : String
  break3_end : String
  active : Bool
deriving DecidableEq, Repr

/-- Validation of one form field: Python's `if field:` skips empty strings,
and a nonempty field must `strptime` as `"%Y-%m-%d %I:%M %p"` against the
(well-formed) session date, i.e. its time portion must parse. -/
def fieldValid (f : String) : Bool :=
  f.isEmpty || (parseClock f.data).isSome

/-- Conjunction of the eight per-field validations of the edit form. -/
def formValid (e : EditForm) : Bool :=
  fieldValid e.check_in && fieldValid e.check_out &&
    fieldValid e.break1_start && fieldValid e.break1_end &&
    fieldValid e.break2_start && fieldValid e.break2_end &&
    fieldValid e.break3_start && fieldValid e.break3_end

/-- Conversion of a text-input value to a cell: empty becomes `pd.NA`. -/
def toOpt (f : String) : Option String :=
  if f.isEmpty then none else some f

/-- The admin edit-session save handler: when every field validates, write
all eight time cells and the active flag, then recompute and store the
durations with the session's date; otherwise leave the row unchanged. -/
def edit_session_handler (row : Row) (e : EditForm) (shift_date : Int) :
    Row :=
  if formValid e then
    recompute
      { row with
          CheckIn := toOpt e.check_in, CheckOut := toOpt e.check_out,
          Break1Start := toOpt e.break1_start,
          Break1End := toOpt e.break1_end,
          Break2Start := toOpt e.break2_start,
          Break2End := toOpt e.break2_end,
          Break3Start := toOpt e.break3_start,
          Break3End := toOpt e.break3_end,
          Active := e.active } shift_date
  else row

/-- The record-mutating operations of `src/app.py` that touch time fields. -/
inductive Op where
  | checkIn : Op
  | breakStart : Fin 3 → Op
  | breakEnd : Fin 3 → Op
  | checkOut : Op
  | editSession : EditForm → Op

/-- Dispatch of an operation to its handler. -/
def apply_op (op : Op) (row : Row) (now : Timestamp) (shift_date : Int) :
    Row :=
  match op with
  | .checkIn => check_in_handler row now shift_date
  | .breakStart i => break_start_handler row i now shift_date
  | .breakEnd i => break_end_handler row i now shift_date
  | .checkOut => check_out_handler row now shift_date
  | .editSession e => edit_session_handler row e shift_date

/-- The admin `"Delete User (Keep Data)"` branch:
`df.loc[df['User'] == remove_user, 'Active'] = False`. -/
def soft_delete_keep_data (table : List Row) (user : String) : List Row :=
  table.map fun r => if r.User = user then { r with Active := false } else r

/-- Combined executable check for the format/parse round trip at a given
hour and minute: the clock fields survive, and the formatted string ends
with `"AM"` exactly for morning hours. -/
def roundtripCheck (hour minute : Nat) : Bool :=
  let s : String := ⟨formatChars hour minute⟩
  (parseClock s.data == some (hour, minute)) &&
    (pyEndsWith s "AM" == decide (hour < 12))

/-- Concrete row with data for an enrolled user. -/
def aliceRow : Row :=
  { emptyRow "alice" 0 with CheckIn := some "4:00 PM", TotalHours := 8 }

/-- Concrete row for a second, untouched user. -/
def bobRow : Row := emptyRow "bob" 0

example : parseClock "1:30 AM".data = some (1, 30) := by decide
example : parseClock "12:00 AM".data = some (0, 0) := by decide
example : parseClock "12:00 PM".data = some (12, 0) := by decide
example : parseClock "4:00 PM".data = some (16, 0) := by decide
example : parseClock "14:30".data = none := by decide
example : parseClock "banana".data = none := by decide
example : parseClock "".data = none := by decide
example : parseClock "1:30 am".data = some (1, 30) := by decide
example : parseClock "09:05 pM".data = some (21, 5) := by decide
example : parseClock "0:30 AM".data = none := by decide
example : parseClock "13:30 AM".data = none := by decide
example : parseClock "1:61 AM".data = none := by decide
example : parseClock "1:30  AM".data = some (1, 30) := by decide
example : parseClock " 1:30 AM".data = some (1, 30) := by decide
example : parseClock "1:30 AM ".data = none := by decide
example : format_time ⟨0, 1, 30⟩ = "1:30 AM" := by decide
example : format_time ⟨0, 16, 0⟩ = "4:00 PM" := by decide
example : format_time ⟨0, 0, 5⟩ = "12:05 AM" := by decide
example : format_time ⟨0, 12, 0⟩ = "12:00 PM" := by decide
example : format_time ⟨0, 9, 59⟩ = "9:59 AM" := by decide

/-- The guarded call `parse_time(x, d) if pd.notna(x) else None` coincides
with `parse_time` itself, because `parse_time` already maps `None` to
`None`. -/
theorem guard_parse (o : Option String) (d : Int) :
    (if o.isSome then parse_time o d else none) = parse_time o d := by
  cases o <;> simp [parse_time]

/-- Two two-character suffixes that differ in some position cannot both be
suffixes of the same character list. -/
theorem isSuffixOf_pair_ne {l : List Char} {a b a' b' : Char}
    (hne : a ≠ a' ∨ b ≠ b') (h : List.isSuffixOf [a, b] l = true) :
    List.isSuffixOf [a', b'] l = false := by
  cases hx : List.isSuffixOf [a', b'] l with
  | false => rfl
  | true =>
    exfalso
    rw [List.isSuffixOf_iff_suffix] at h hx
    obtain ⟨t, ht⟩ := h
    obtain ⟨t', ht'⟩ := hx
    have heq : t ++ [a, b] = t' ++ [a', b'] := ht.trans ht'.symm
    have hlen : t.length = t'.length := by
      have h2 := congrArg List.length heq
      simp at h2
      omega
    have h3 := List.append_inj_right heq hlen
    rcases hne with hne | hne <;> simp_all

/-- A string ending in `"PM"` does not end in `"AM"`. -/
theorem pyEndsWith_PM_not_AM (s : String) (h : pyEndsWith s "PM" = true) :
    pyEndsWith s "AM" = false :=
  isSuffixOf_pair_ne (Or.inl (by decide)) h

/-- A string ending in the lowercase `"am"` does not end in `"AM"`. -/
theorem pyEndsWith_am_not_AM (s : String) (h : pyEndsWith s "am" = true) :
    pyEndsWith s "AM" = false :=
  isSuffixOf_pair_ne (Or.inr (by decide)) h

set_option maxRecDepth 10000 in
/-- Exhaustive verification of the format/parse round trip over every
in-range wall-clock reading. -/
theorem clock_roundtrip : ∀ h < 24, ∀ m < 60, roundtripCheck h m = true := by
  decide

/-- Unpacked form of `clock_roundtrip`. -/
theorem clock_roundtrip_parse {h m : Nat} (hh : h < 24) (hm : m < 60) :
    parseClock (format_time ⟨0, h, m⟩).data = some (h, m) ∧
      pyEndsWith (format_time ⟨0, h, m⟩) "AM" = decide (h < 12) := by
  have hrt := clock_roundtrip h hh m hm
  rw [roundtripCheck] at hrt
  simp only [Bool.and_eq_true, beq_iff_eq] at hrt
  exact hrt

/-- Writing the recomputed durations back into the float cells reproduces
exactly what `calculate_times` returns for the row, because
`calculate_times` never reads those cells. -/
theorem storedDerived_recompute (row : Row) (d : Int) :
    storedDerived (recompute row d) d :=
  ⟨rfl, rfl⟩

/-- C1: for every time string `s` and shift date `d` on which `parse_time`
succeeds with clock reading `(h, m)`, if `h < 16` and `s` ends with `"AM"`
the result is the naive combination `⟨d, h, m⟩` plus one day, and if
`h < 16` and `s` is tagged `"PM"` the result is the naive combination with
no day added. -/
theorem parse_time_rollover :
    ∀ (s : String) (d : Int) (h m : Nat),
      parseClock s.data = some (h, m) → h < 16 →
      (pyEndsWith s "AM" = true → parse_time (some s) d = some ⟨d + 1, h, m⟩) ∧
      (pyEndsWith s "PM" = true → parse_time (some s) d = some ⟨d, h, m⟩) := by
  intro s d h m hpc hlt
  constructor
  · intro ham
    simp [parse_time, hpc, ham, hlt]
  · intro hpm
    have ham := pyEndsWith_PM_not_AM s hpm
    simp [parse_time, hpc, ham]

/-- Witness for C1 at `"1:30 AM"` (rolled to the next day) and `"2:00 PM"`
(hour 14, before 16, left un-rolled). -/
theorem parse_time_rollover_witness :
    parse_time (some "1:30 AM") 0 = some ⟨1, 1, 30⟩ ∧
      parse_time (some "2:00 PM") 0 = some ⟨0, 14, 0⟩ :=
  ⟨(parse_time_rollover "1:30 AM" 0 1 30 (by decide) (by decide)).1
      (by decide),
    (parse_time_rollover "2:00 PM" 0 14 0 (by decide) (by decide)).2
      (by decide)⟩

/-- C2: `get_shift_date` returns the previous day exactly when the hour is
strictly before 4, or the hour is 4 with minute 0; otherwise it returns the
current day.  At 03:59 it returns `D - 1`, at 04:00 it returns `D - 1`, at
04:01 it returns `D`, and at 23:59 it returns `D`. -/
theorem get_shift_date_spec :
    (∀ now : Timestamp,
        (get_shift_date now = now.day - 1 ↔
          (now.hour < 4 ∨ (now.hour = 4 ∧ now.minute = 0))) ∧
        (¬(now.hour < 4 ∨ (now.hour = 4 ∧ now.minute = 0)) →
          get_shift_date now = now.day)) ∧
    (∀ d : Int,
        get_shift_date ⟨d, 3, 59⟩ = d - 1 ∧ get_shift_date ⟨d, 4, 0⟩ = d - 1 ∧
          get_shift_date ⟨d, 4, 1⟩ = d ∧ get_shift_date ⟨d, 23, 59⟩ = d) := by
  constructor
  · intro now
    constructor
    · constructor
      · intro hd
        by_contra hc
        rw [get_shift_date, if_neg hc] at hd
        omega
      · intro hc
        rw [get_shift_date, if_pos hc]
    · intro hc
      rw [get_shift_date, if_neg hc]
  · intro d
    refine ⟨?_, ?_, ?_, ?_⟩
    all_goals simp [get_shift_date]

/-- Witness for C2 at 02:15 (previous day) and 05:00 (same day) on day
10. -/
theorem get_shift_date_spec_witness :
    get_shift_date ⟨10, 2, 15⟩ = 10 - 1 ∧ get_shift_date ⟨10, 5, 0⟩ = 10 :=
  ⟨(get_shift_date_spec.1 ⟨10, 2, 15⟩).1.mpr (by decide),
    (get_shift_date_spec.1 ⟨10, 5, 0⟩).2 (by decide)⟩

/-- C4: `total_hours` is the check-out minus check-in difference in
fractional hours (elapsed seconds over 3600) whenever both strings parse
via `parse_time` — a pass-through of the arithmetic, so negative results
are possible — and 0 whenever either side is absent or unparseable.  A
record with check-in `"4:00 PM"` and check-out `"12:00 AM"` yields 8 hours
(the check-out rolls to the next day); only a check-in yields 0; a
check-out parsing before the check-in yields the negative difference. -/
theorem calculate_times_total_hours :
    (∀ (row : Row) (d : Int) (ci co : Timestamp),
        parse_time row.CheckIn d = some ci →
        parse_time row.CheckOut d = some co →
        (calculate_times row d).1 =
          ((toSeconds co - toSeconds ci : Int) : ℚ) / 3600) ∧
    (∀ (row : Row) (d : Int),
        parse_time row.CheckIn d = none ∨ parse_time row.CheckOut d = none →
        (calculate_times row d).1 = 0) ∧
    (∀ d : Int,
        (calculate_times
            { emptyRow "u" 0 with
                CheckIn := some "4:00 PM", CheckOut := some "12:00 AM" }
            d).1 = 8) ∧
    (∀ d : Int,
        (calculate_times { emptyRow "u" 0 with CheckIn := some "4:00 PM" }
            d).1 = 0) ∧
    (∀ d : Int,
        (calculate_times
            { emptyRow "u" 0 with
                CheckIn := some "5:00 PM", CheckOut := some "4:30 PM" }
            d).1 = -(1 / 2)) := by
  refine ⟨?_, ?_, ?_, ?_, ?_⟩
  · intro row d ci co hci hco
    simp only [calculate_times, guard_parse]
    rw [hci, hco]
  · intro row d hor
    simp only [calculate_times, guard_parse]
    rcases hor with hn | hn
    · rw [hn]
    · rw [hn]
      cases parse_time row.CheckIn d <;> rfl
  · intro d
    show ((toSeconds ⟨d + 1, 0, 0⟩ - toSeconds ⟨d, 16, 0⟩ : Int) : ℚ) /
        3600 = 8
    simp only [toSeconds]
    push_cast
    ring
  · intro d
    rfl
  · intro d
    show ((toSeconds ⟨d, 16, 30⟩ - toSeconds ⟨d, 17, 0⟩ : Int) : ℚ) /
        3600 = -(1 / 2)
    simp only [toSeconds]
    push_cast
    ring

/-- Witness for C4 at a concrete record: the hypothesis parts applied to
the 4:00 PM / 12:00 AM record and to a record whose check-out is garbage. -/
theorem calculate_times_total_hours_witness :
    (calculate_times
        { emptyRow "u" 0 with
            CheckIn := some "4:00 PM", CheckOut := some "12:00 AM" } 0).1 =
      ((toSeconds ⟨1, 0, 0⟩ - toSeconds ⟨0, 16, 0⟩ : Int) : ℚ) / 3600 ∧
    (calculate_times
        { emptyRow "u" 0 with
            CheckIn := some "4:00 PM", CheckOut := some "banana" } 0).1 = 0 :=
  ⟨calculate_times_total_hours.1
      { emptyRow "u" 0 with
          CheckIn := some "4:00 PM", CheckOut := some "12:00 AM" }
      0 ⟨0, 16, 0⟩ ⟨1, 0, 0⟩ (by decide) (by decide),
    calculate_times_total_hours.2.1
      { emptyRow "u" 0 with
          CheckIn := some "4:00 PM", CheckOut := some "banana" }
      0 (Or.inr (by decide))⟩

/-- C5: `break_duration` is the sum over the three break slots of the
end-minus-start difference in fractional hours, over exactly the slots
where both sides parse via `parse_time`; a slot with an absent or
unparseable side contributes 0.  A record whose only break is
`"6:00 PM"`–`"6:30 PM"` yields half an hour. -/
theorem calculate_times_break_hours :
    (∀ (d : Int) (s e : Option String) (bs be : Timestamp),
        parse_time s d = some bs → parse_time e d = some be →
        slotDuration s e d =
          ((toSeconds be - toSeconds bs : Int) : ℚ) / 3600) ∧
    (∀ (d : Int) (s e : Option String),
        parse_time s d = none ∨ parse_time e d = none →
        slotDuration s e d = 0) ∧
    (∀ (row : Row) (d : Int),
        (calculate_times row d).2 =
          slotDuration row.Break1Start row.Break1End d +
            slotDuration row.Break2Start row.Break2End d +
            slotDuration row.Break3Start row.Break3End d) ∧
    (∀ d : Int,
        (calculate_times
            { emptyRow "u" 0 with
                Break1Start := some "6:00 PM", Break1End := some "6:30 PM" }
            d).2 = 1 / 2) := by
  refine ⟨?_, ?_, ?_, ?_⟩
  · intro d s e bs be hbs hbe
    simp only [slotDuration, guard_parse]
    rw [hbs, hbe]
  · intro d s e hor
    simp only [slotDuration, guard_parse]
    rcases hor with hn | hn
    · rw [hn]
    · rw [hn]
      cases parse_time s d <;> rfl
  · intro row d
    rfl
  · intro d
    show slotDuration (some "6:00 PM") (some "6:30 PM") d + 0 + 0 = 1 / 2
    have h1 : slotDuration (some "6:00 PM") (some "6:30 PM") d =
        ((toSeconds ⟨d, 18, 30⟩ - toSeconds ⟨d, 18, 0⟩ : Int) : ℚ) / 3600 :=
      rfl
    rw [h1]
    simp only [toSeconds]
    push_cast
    ring

/-- Witness for C5: the parsing slot and a half-open slot on a concrete
record. -/
theorem calculate_times_break_hours_witness :
    slotDuration (some "6:00 PM") (some "6:30 PM") 0 =
      ((toSeconds ⟨0, 18, 30⟩ - toSeconds ⟨0, 18, 0⟩ : Int) : ℚ) / 3600 ∧
    slotDuration (some "6:00 PM") none 0 = 0 :=
  ⟨calculate_times_break_hours.1 0 (some "6:00 PM") (some "6:30 PM")
      ⟨0, 18, 0⟩ ⟨0, 18, 30⟩ (by decide) (by decide),
    calculate_times_break_hours.2.1 0 (some "6:00 PM") none
      (Or.inr (by decide))⟩

/-- C6: `parse_time` is a total function returning `Option` (all failure is
the value `none`, nothing is thrown), and it returns `none` on an absent
input, the empty string, non-time garbage, and a well-formed 24-hour time
missing its AM/PM tag — for every shift date. -/
theorem parse_time_never_throws :
    ∀ d : Int,
      parse_time none d = none ∧
        parse_time (some "") d = none ∧
        parse_time (some "banana") d = none ∧
        parse_time (some "14:30") d = none := by
  intro d
  exact ⟨rfl, rfl, rfl, rfl⟩

/-- C7: `calculate_times` is deterministic — its result depends only on the
record snapshot and the shift date, so two calls on equal, unmodified
inputs return identical `(total_hours, break_duration)` pairs. -/
theorem calculate_times_deterministic :
    ∀ (row row' : Row) (d d' : Int), row = row' → d = d' →
      calculate_times row d = calculate_times row' d' := by
  intro row row' d d' h1 h2
  rw [h1, h2]

/-- Witness for C7 on a concrete row. -/
theorem calculate_times_deterministic_witness :
    calculate_times (emptyRow "u" 0) 0 = calculate_times (emptyRow "u" 0) 0 :=
  calculate_times_deterministic (emptyRow "u" 0) (emptyRow "u" 0) 0 0 rfl rfl

/-- C3 counterexample: at 10:00 AM — an AM hour in `[4, 12)` — the
format/parse round trip does not return the timestamp unchanged, contrary
to the claim; it lands one day later. -/
theorem roundtrip_counterexample :
    parse_time (some (format_time ⟨0, 10, 0⟩)) 0 = some ⟨1, 10, 0⟩ ∧
      parse_time (some (format_time ⟨0, 10, 0⟩)) 0 ≠ some ⟨0, 10, 0⟩ := by
  decide

/-- C3 (amended): for every in-range timestamp `T`, parsing back the
formatted time on `T`'s own date returns `T` shifted one day forward
whenever `T`'s hour is in `[0, 12)` (the string is tagged AM), and returns
`T` unchanged for hours 12 through 23 (tagged PM). -/
theorem parse_format_roundtrip :
    ∀ t : Timestamp, t.hour < 24 → t.minute < 60 →
      (t.hour < 12 →
        parse_time (some (format_time t)) t.day =
          some ⟨t.day + 1, t.hour, t.minute⟩) ∧
      (12 ≤ t.hour →
        parse_time (some (format_time t)) t.day = some t) := by
  rintro ⟨d, h, m⟩ hh hm
  have hh' : h < 24 := hh
  have hm' : m < 60 := hm
  obtain ⟨hparse, hends⟩ := clock_roundtrip_parse hh' hm'
  have hfmt : format_time (⟨d, h, m⟩ : Timestamp) = format_time ⟨0, h, m⟩ :=
    rfl
  constructor
  · intro h12
    have h12' : h < 12 := h12
    have h16 : h < 16 := by omega
    have hAM : pyEndsWith (format_time (⟨0, h, m⟩ : Timestamp)) "AM" = true := by
      rw [hends]
      simpa using h12'
    show parse_time (some (format_time ⟨d, h, m⟩)) d = some ⟨d + 1, h, m⟩
    rw [hfmt]
    simp [parse_time, hparse, hAM, h16]
  · intro h12
    have h12' : 12 ≤ h := h12
    have hAM : pyEndsWith (format_time (⟨0, h, m⟩ : Timestamp)) "AM" = false := by
      rw [hends]
      simpa using h12'
    show parse_time (some (format_time ⟨d, h, m⟩)) d = some ⟨d, h, m⟩
    rw [hfmt]
    simp [parse_time, hparse, hAM]

/-- Witness for C3's amended theorem: an AM instance (1:30, shifted one day
forward) and a PM instance (13:00, returned unchanged). -/
theorem parse_format_roundtrip_witness :
    parse_time (some (format_time ⟨0, 1, 30⟩)) 0 = some ⟨1, 1, 30⟩ ∧
      parse_time (some (format_time ⟨0, 13, 0⟩)) 0 = some ⟨0, 13, 0⟩ :=
  ⟨(parse_format_roundtrip ⟨0, 1, 30⟩ (by decide) (by decide)).1 (by decide),
    (parse_format_roundtrip ⟨0, 13, 0⟩ (by decide) (by decide)).2 (by decide)⟩

/-- C10: a time string accepted by `strptime` whose meridiem is the
lowercase `"am"` parses successfully but is not rolled over (the rollover
tests the uppercase literal `"AM"`): `"1:30 am"` stays on the shift date
while `"1:30 AM"` moves to the next day. -/
theorem parse_time_case_sensitive_rollover :
    (∀ (s : String) (d : Int) (h m : Nat),
        parseClock s.data = some (h, m) → pyEndsWith s "am" = true →
        h < 16 → parse_time (some s) d = some ⟨d, h, m⟩) ∧
    (∀ d : Int,
        parse_time (some "1:30 am") d = some ⟨d, 1, 30⟩ ∧
          parse_time (some "1:30 AM") d = some ⟨d + 1, 1, 30⟩) := by
  constructor
  · intro s d h m hpc hlow _
    have ham := pyEndsWith_am_not_AM s hlow
    simp [parse_time, hpc, ham]
  · intro d
    exact ⟨rfl, rfl⟩

/-- Witness for C10 at `"1:30 am"` on shift date 5. -/
theorem parse_time_case_sensitive_rollover_witness :
    parse_time (some "1:30 am") 5 = some ⟨5, 1, 30⟩ :=
  parse_time_case_sensitive_rollover.1 "1:30 am" 5 1 30 (by decide)
    (by decide) (by decide)

/-- C8: every record-mutating operation (check-in, break start/end,
check-out, admin session edit) either leaves the row untouched (its guard
rejected the press) or leaves the stored `TotalHours` and `BreakDuration`
equal to `calculate_times` applied to the row's own time fields and the
shift date — the stored values are recomputed at every change, never
independently authoritative. -/
theorem stored_hours_recomputed :
    ∀ (op : Op) (row : Row) (now : Timestamp) (shift_date : Int),
      apply_op op row now shift_date = row ∨
        storedDerived (apply_op op row now shift_date) shift_date := by
  intro op row now shift_date
  cases op with
  | checkIn =>
    simp only [apply_op, check_in_handler]
    split
    · exact Or.inr (storedDerived_recompute _ _)
    · exact Or.inl rfl
  | breakStart i =>
    simp only [apply_op, break_start_handler]
    split
    · exact Or.inr (storedDerived_recompute _ _)
    · exact Or.inl rfl
  | breakEnd i =>
    simp only [apply_op, break_end_handler]
    split
    · exact Or.inr (storedDerived_recompute _ _)
    · exact Or.inl rfl
  | checkOut =>
    simp only [apply_op, check_out_handler]
    split
    · exact Or.inr (storedDerived_recompute _ _)
    · exact Or.inl rfl
  | editSession e =>
    simp only [apply_op, edit_session_handler]
    split
    · exact Or.inr (storedDerived_recompute _ _)
    · exact Or.inl rfl

/-- C9: the admin soft delete flips `Active` to false on every record of
the selected user and changes nothing else — the table keeps its length,
every row keeps its user, date, all eight time fields and both computed
cells, and rows of other users are completely unchanged. -/
theorem soft_delete_frame :
    ∀ (table : List Row) (u : String),
      (soft_delete_keep_data table u).length = table.length ∧
      ∀ (i : Nat) (r r' : Row), table.get? i = some r →
        (soft_delete_keep_data table u).get? i = some r' →
        (r.User = u → r'.Active = false) ∧
        (r.User ≠ u → r' = r) ∧
        r'.User = r.User ∧ r'.Date = r.Date ∧
        r'.CheckIn = r.CheckIn ∧ r'.CheckOut = r.CheckOut ∧
        r'.Break1Start = r.Break1Start ∧ r'.Break1End = r.Break1End ∧
        r'.Break2Start = r.Break2Start ∧ r'.Break2End = r.Break2End ∧
        r'.Break3Start = r.Break3Start ∧ r'.Break3End = r.Break3End ∧
        r'.TotalHours = r.TotalHours ∧
        r'.BreakDuration = r.BreakDuration := by
  intro table u
  constructor
  · simp [soft_delete_keep_data]
  · intro i r r' hr hr'
    rw [soft_delete_keep_data, List.get?_map, hr, Option.map_some'] at hr'
    have hr'' : (if r.User = u then { r with Active := false } else r) = r' :=
      Option.some.inj hr'
    by_cases hu : r.User = u
    · rw [if_pos hu] at hr''
      subst hr''
      refine ⟨fun _ => rfl, fun hne => absurd hu hne, ?_⟩
      exact ⟨rfl, rfl, rfl, rfl, rfl, rfl, rfl, rfl, rfl, rfl, rfl, rfl⟩
    · rw [if_neg hu] at hr''
      subst hr''
      refine ⟨fun heq => absurd heq hu, fun _ => rfl, ?_⟩
      exact ⟨rfl, rfl, rfl, rfl, rfl, rfl, rfl, rfl, rfl, rfl, rfl, rfl⟩

/-- Witness for C9 on a concrete two-user table: the row of the deleted
user drops its active flag while keeping its check-in. -/
theorem soft_delete_frame_witness :
    (soft_delete_keep_data [aliceRow, bobRow] "alice").length = 2 ∧
      ({ aliceRow with Active := false } : Row).Active = false ∧
      ({ aliceRow with Active := false } : Row).CheckIn = aliceRow.CheckIn :=
  have h := (soft_delete_frame [aliceRow, bobRow] "alice").2 0 aliceRow
    { aliceRow with Active := false } rfl (by decide)
  ⟨(soft_delete_frame [aliceRow, bobRow] "alice").1, h.1 rfl, h.2.2.2.2.1⟩

end Attendance
